import Mathlib

/-!
# Hippy: the native render provider boundary (`jni/native_render_provider.cc`)

A shallow embedding of the four JNI entry points of `native_render_provider.cc`

* `CreateNativeRenderDelegate`
* `UpdateRootSize`
* `DoCallBack`
* `OnReceivedEvent`

Each entry point is a function from the state of the native side (`World`) and its JNI arguments to
a `Result`: how the call ended, the state it left, and the trace of the calls it made on its
collaborators, in program order.  The collaborators themselves (`Runtime`, `Scope`, `DomManager`,
`DomNode`, `LayoutNode`, `DomValue`, `Deserializer`, `HippyRenderManager`) are declared in headers
that are not part of the translated sources; what is taken from each is documented on its
definition.
-/

namespace Hippy

/-! ## JNI types -/

/-- A JNI `jfloat`, carried by its IEEE-754 binary32 bit pattern.  The entry points only pass floats
through to setters; they perform no floating-point arithmetic and no floating-point comparison. -/
structure jfloat where
  bits : Nat
deriving DecidableEq, Repr

/-- A JNI `jobject`: a reference into the Java heap. -/
structure jobject where
  ref : Nat
deriving DecidableEq, Repr

/-- A JNI `jstring`: a Java string, its UTF-16 code units. -/
structure jstring where
  units : List Nat
deriving DecidableEq, Repr

/-- The C cast `(bool) j` of a `jboolean` (an unsigned 8-bit value): true exactly when non-zero. -/
def jbooleanToBool (j : Nat) : Bool := j != 0

/-- The implicit conversion of a `jint` to the `uint32_t` node id that `DomManager::GetNode`
is called with (`GetRootId` yields a `uint32_t` that is passed to the same `GetNode`). -/
def toNodeId (j : Int) : Nat := (j % 2 ^ 32).toNat

/-! ## Collaborator data -/

/-- Modelled from the spec: `tdf::base::DomValue` (`dom/dom_value.h` is not among the sources).
Spec section 3: a Decoded Value is a tagged union of null, boolean, number, string, ordered
sequence and string-keyed mapping; the value produced from an empty or absent buffer is an explicit
"no parameters" state, distinct from an empty object.  That state is the constructor `undefined`,
which is what the default constructor `DomValue()` builds.  A number carries its bit pattern. -/
inductive DomValue where
  | undefined
  | null
  | boolean (b : Bool)
  | number (bits : Nat)
  | string (s : String)
  | array (items : List DomValue)
  | object (entries : List (String × DomValue))

/-- Modelled from the spec: the default constructor `DomValue()` of `dom/dom_value.h`, the explicit
"no parameters" state of spec section 3. -/
def DomValue.default : DomValue := DomValue.undefined

/-- The empty map/object value. -/
def DomValue.emptyObject : DomValue := DomValue.object []

/-- The argument handed to a callback, `hippy::dom::DomArgument`, constructed from a copy of a
`DomValue`. -/
structure DomArgument where
  value : DomValue

/-- A callback registered on a node, identified by a handle. -/
structure Callback where
  handle : Nat
deriving DecidableEq, Repr

/-- The event handed to `DomNode::HandleEvent`, in the argument order of the constructor call
`DomEvent(event_name, node, use_capture, use_bubble, params)`.  The target is a reference to a node:
the id under which the DOM manager holds it.  Absent parameters are the null pointer, `none`. -/
structure DomEvent where
  type : String
  target : Nat
  useCapture : Bool
  useBubble : Bool
  params : Option DomValue

/-- The layout node of a DOM node, with the scale factor `SetScaleFactor` stores. -/
structure LayoutNode where
  scaleFactor : jfloat
deriving DecidableEq, Repr

/-- A DOM node: its layout node (a shared pointer, possibly null) and its callback table from
callback name to callback. -/
structure DomNode where
  layoutNode : Option LayoutNode
  callbacks : List (String × Callback)
deriving DecidableEq, Repr

/-- Modelled from the spec: `hippy::dom::DomManager` (`dom/dom_manager.h` is not among the sources).
Spec section 3: a DOM manager owns the node registry of one document tree (node id to node), a root
node id, the current viewport size (width, height), an optional render manager delegate and an
optional delegate task runner.  `layoutPasses` counts the layout passes `DoLayout` has triggered.
Render managers and task runners are referred to by address. -/
structure DomManager where
  rootId : Nat
  nodes : Nat → Option DomNode
  rootSize : jfloat × jfloat
  layoutPasses : Nat
  renderManager : Option Nat
  delegateTaskRunner : Option Nat

/-- Modelled from the spec: the execution context `Scope` (`core/scope.h` is not among the sources).
Spec section 3: it owns a DOM manager (a shared pointer, possibly null), a task runner reference and,
after binding, a render manager. -/
structure Scope where
  domManager : Option DomManager
  taskRunner : Option Nat
  renderManager : Option Nat

/-- The native-UI-bound render manager `HippyRenderManager`: the Java object it is bound to and its
density, unset until `SetDensity` is called. -/
structure HippyRenderManager where
  javaRef : jobject
  density : Option jfloat
deriving DecidableEq, Repr

/-- The state of the native side: the runtime registry behind `Runtime::Find` and the render
managers allocated so far (a render manager's address is its position in this list).

Modelled from the spec: `Runtime` (`bridge/runtime.h` is not among the sources).  Spec sections 3
and 4.2: a handle maps to exactly one execution context, `Find(handle)` yields it or nothing, so
`GetScope` on a runtime that was found always yields its scope. -/
structure World where
  runtimes : Int → Option Scope
  renderManagers : List HippyRenderManager

/-! ## Collaborator operations -/

/-- Modelled from the spec: `Runtime::Find` followed by `Runtime::GetScope` (spec 4.2). -/
def World.Find (w : World) (j_runtime_id : Int) : Option Scope := w.runtimes j_runtime_id

/-- Writes the scope of runtime `j_runtime_id` and the render manager heap back into the state: the
entry points mutate these objects through shared pointers. -/
def World.store (w : World) (j_runtime_id : Int) (scope : Scope)
    (heap : List HippyRenderManager) : World :=
  { runtimes := fun k => if k = j_runtime_id then some scope else w.runtimes k
    renderManagers := heap }

/-- Modelled from the spec: `HippyRenderManager::SetDensity` stores the density. -/
def HippyRenderManager.SetDensity (rm : HippyRenderManager) (density : jfloat) :
    HippyRenderManager :=
  { rm with density := some density }

/-- Modelled from the spec: `Scope::SetRenderManager` stores the render manager (spec 3). -/
def Scope.SetRenderManager (s : Scope) (render_manager : Nat) : Scope :=
  { s with renderManager := some render_manager }

/-- Modelled from the spec: `Scope::GetTaskRunner` yields the scope's task runner. -/
def Scope.GetTaskRunner (s : Scope) : Option Nat := s.taskRunner

/-- Modelled from the spec: `DomManager::GetRootId` (spec 4.3). -/
def DomManager.GetRootId (dm : DomManager) : Nat := dm.rootId

/-- Modelled from the spec: `DomManager::GetNode`; a miss is "not found" (spec 4.3). -/
def DomManager.GetNode (dm : DomManager) (id : Nat) : Option DomNode := dm.nodes id

/-- Writes a node back into the node registry under its id. -/
def DomManager.storeNode (dm : DomManager) (id : Nat) (node : DomNode) : DomManager :=
  { dm with nodes := fun k => if k = id then some node else dm.nodes k }

/-- Modelled from the spec: `DomManager::SetRenderManager` installs the render delegate. -/
def DomManager.SetRenderManager (dm : DomManager) (render_manager : Nat) : DomManager :=
  { dm with renderManager := some render_manager }

/-- Modelled from the spec: `DomManager::SetDelegateTaskRunner` installs the delegate runner. -/
def DomManager.SetDelegateTaskRunner (dm : DomManager) (runner : Option Nat) : DomManager :=
  { dm with delegateTaskRunner := runner }

/-- Modelled from the spec: `DomManager::SetRootSize` stores the viewport size (spec 3, 4.3). -/
def DomManager.SetRootSize (dm : DomManager) (width height : jfloat) : DomManager :=
  { dm with rootSize := (width, height) }

/-- Modelled from the spec: `DomManager::DoLayout` triggers one layout pass (spec 4.3). -/
def DomManager.DoLayout (dm : DomManager) : DomManager :=
  { dm with layoutPasses := dm.layoutPasses + 1 }

/-- Modelled from the spec: `LayoutNode::SetScaleFactor` stores the scale factor. -/
def LayoutNode.SetScaleFactor (_ : LayoutNode) (scale : jfloat) : LayoutNode :=
  { scaleFactor := scale }

/-- The callback a node has registered under a name, `DomNode::GetCallback`; a null callback is
`none`. -/
def DomNode.GetCallback (node : DomNode) (func_name : String) : Option Callback :=
  node.callbacks.lookup func_name

/-- The state of a `tdf::base::Deserializer`: the buffer it was constructed on, the length it was
given and its read position. -/
structure Deserializer where
  buffer : List Nat
  length : Int
  position : Nat
deriving DecidableEq, Repr

/-- The functions the entry points call and whose code is not among the sources, taken as
parameters.

* `GetStringUTFChars`: the JNI conversion of a Java string to a C string.
* `GetByteArrayRegion array start len`: the contents of the `len`-byte stack buffer after the JNI
  call of that name, read as `const uint8_t*`.
* `ReadHeader`: `Deserializer::ReadHeader`; reports whether the header was accepted, and the
  deserializer state it leaves.
* `ReadObject`: `Deserializer::ReadObject(value)`; reports whether an object was decoded, the
  contents it leaves in `value`, and the deserializer state it leaves.
* `stackLimit`: the largest size in bytes of the variable-length stack array
  `jbyte params_buffer[j_length]` with which an entry point can go on; a larger array overruns the
  stack of the calling thread. -/
structure Collaborators where
  stackLimit : Nat
  GetStringUTFChars : jstring → String
  GetByteArrayRegion : List Int → Int → Int → List Nat
  ReadHeader : Deserializer → Bool × Deserializer
  ReadObject : Deserializer → DomValue → Bool × DomValue × Deserializer

/-! ## Results and traces -/

/-- The pointer a faulting call dereferenced while it was null. -/
inductive NullPointer where
  | domManager
  | node
  | layoutNode
deriving DecidableEq, Repr

/-- How a call ended: it returned, it dereferenced a null shared pointer, or its variable-length
stack array overran the stack. -/
inductive Outcome where
  | returned
  | nullDereference (pointer : NullPointer)
  | stackOverflow
deriving DecidableEq, Repr

/-- One call made by an entry point on a collaborator. -/
inductive Call where
  | RuntimeFind (j_runtime_id : Int)
  | Log (message : String)
  | LogInt (message : String) (value : Int)
  | LogString (message : String) (value : String)
  | MakeHippyRenderManager (j_object : jobject) (address : Nat)
  | SetDensity (address : Nat) (density : jfloat)
  | GetScope
  | ScopeSetRenderManager (address : Nat)
  | GetDomManager
  | GetRootId
  | GetNode (id : Nat)
  | GetLayoutNode
  | SetScaleFactor (scale : jfloat)
  | DomSetRenderManager (address : Nat)
  | GetTaskRunner
  | SetDelegateTaskRunner (runner : Option Nat)
  | SetRootSize (width height : jfloat)
  | DoLayout
  | GetStringUTFChars (s : jstring)
  | GetCallback (func_name : String)
  | GetByteArrayRegion (array : List Int) (start len : Int)
  | MakeDeserializer (buffer : List Nat) (length : Int)
  | ReadHeader (ok : Bool)
  | ReadObject (ok : Bool)
  | InvokeCallback (callback : Callback) (argument : DomArgument)
  | HandleEvent (node : Nat) (event : DomEvent)

/-- What a call of an entry point did. -/
structure Result where
  outcome : Outcome
  world : World
  trace : List Call

/-! ## The entry points -/

/-- The entry point `CreateNativeRenderDelegate(j_env, j_object, j_runtime_id, j_density)`.

The scope's DOM manager, the root node and its layout node are used without a null check: a null
one is dereferenced, which ends the call in a fault. -/
def CreateNativeRenderDelegate (w : World) (j_object : jobject) (j_runtime_id : Int)
    (j_density : jfloat) : Result :=
  match w.Find j_runtime_id with
  | none =>
    { outcome := Outcome.returned
      world := w
      trace := [Call.RuntimeFind j_runtime_id,
        Call.Log "CreateNativeRenderDelegate j_runtime_id invalid"] }
  | some scope0 =>
    let render_manager := w.renderManagers.length
    let rm := (HippyRenderManager.mk j_object none).SetDensity j_density
    let heap := w.renderManagers ++ [rm]
    let scope := scope0.SetRenderManager render_manager
    let t0 := [Call.RuntimeFind j_runtime_id, Call.MakeHippyRenderManager j_object render_manager,
      Call.SetDensity render_manager j_density, Call.GetScope,
      Call.ScopeSetRenderManager render_manager, Call.GetDomManager]
    match scope.domManager with
    | none =>
      { outcome := Outcome.nullDereference NullPointer.domManager
        world := w.store j_runtime_id scope heap
        trace := t0 }
    | some dom_manager =>
      let root_id := dom_manager.GetRootId
      match dom_manager.GetNode root_id with
      | none =>
        { outcome := Outcome.nullDereference NullPointer.node
          world := w.store j_runtime_id scope heap
          trace := t0 ++ [Call.GetRootId, Call.GetNode root_id] }
      | some node =>
        match node.layoutNode with
        | none =>
          { outcome := Outcome.nullDereference NullPointer.layoutNode
            world := w.store j_runtime_id scope heap
            trace := t0 ++ [Call.GetRootId, Call.GetNode root_id, Call.GetLayoutNode] }
        | some layout_node =>
          let node1 := { node with layoutNode := some (layout_node.SetScaleFactor j_density) }
          let dm1 := dom_manager.storeNode root_id node1
          let dm2 := dm1.SetRenderManager render_manager
          let dm3 := dm2.SetDelegateTaskRunner scope.GetTaskRunner
          { outcome := Outcome.returned
            world := w.store j_runtime_id { scope with domManager := some dm3 } heap
            trace := t0 ++ [Call.GetRootId, Call.GetNode root_id, Call.GetLayoutNode,
              Call.SetScaleFactor j_density, Call.DomSetRenderManager render_manager,
              Call.GetTaskRunner,
              Call.SetDelegateTaskRunner scope.GetTaskRunner] }

/-- The entry point `UpdateRootSize(j_env, j_object, j_runtime_id, j_width, j_height)`. -/
def UpdateRootSize (w : World) (j_runtime_id : Int) (j_width j_height : jfloat) : Result :=
  match w.Find j_runtime_id with
  | none =>
    { outcome := Outcome.returned
      world := w
      trace := [Call.RuntimeFind j_runtime_id, Call.Log "UpdateRootSize j_runtime_id invalid"] }
  | some scope =>
    match scope.domManager with
    | none =>
      { outcome := Outcome.returned
        world := w
        trace := [Call.RuntimeFind j_runtime_id, Call.GetScope, Call.GetDomManager,
          Call.Log "UpdateRootSize dom_manager is nullptr"] }
    | some dom_manager =>
      let dm1 := dom_manager.SetRootSize j_width j_height
      let dm2 := dm1.DoLayout
      { outcome := Outcome.returned
        world := w.store j_runtime_id { scope with domManager := some dm2 } w.renderManagers
        trace := [Call.RuntimeFind j_runtime_id, Call.GetScope, Call.GetDomManager,
          Call.SetRootSize j_width j_height, Call.DoLayout] }

/-- The entry point `DoCallBack(j_env, j_object, j_runtime_id, j_dom_id, j_func_name, j_buffer,
j_offset, j_length)`.  A null `j_buffer` is `none`.  A supplied buffer is copied into the stack
array `jbyte params_buffer[j_length]`, whose size is not bounded: beyond `stackLimit` the call ends
in a stack overflow, before anything is copied or decoded.  The values `ReadHeader` and
`ReadObject` report are not inspected. -/
def DoCallBack (env : Collaborators) (w : World) (j_runtime_id : Int) (j_dom_id : Int)
    (j_func_name : jstring) (j_buffer : Option (List Int)) (j_offset j_length : Int) : Result :=
  match w.Find j_runtime_id with
  | none =>
    { outcome := Outcome.returned
      world := w
      trace := [Call.RuntimeFind j_runtime_id, Call.Log "DoCallBack j_runtime_id invalid"] }
  | some scope =>
    match scope.domManager with
    | none =>
      { outcome := Outcome.returned
        world := w
        trace := [Call.RuntimeFind j_runtime_id, Call.GetScope, Call.GetDomManager,
          Call.Log "DoCallBack dom_manager is nullptr"] }
    | some dom_manager =>
      match dom_manager.GetNode (toNodeId j_dom_id) with
      | none =>
        { outcome := Outcome.returned
          world := w
          trace := [Call.RuntimeFind j_runtime_id, Call.GetScope, Call.GetDomManager,
            Call.GetNode (toNodeId j_dom_id),
            Call.LogInt "DoCallBack DomNode not found for id: " j_dom_id] }
      | some node =>
        let func_name := env.GetStringUTFChars j_func_name
        let t0 := [Call.RuntimeFind j_runtime_id, Call.GetScope, Call.GetDomManager,
          Call.GetNode (toNodeId j_dom_id), Call.GetStringUTFChars j_func_name,
          Call.GetCallback func_name]
        match node.GetCallback func_name with
        | none =>
          { outcome := Outcome.returned
            world := w
            trace := t0 ++
              [Call.LogString "DoCallBack Callback not found for func_name: " func_name] }
        | some callback =>
          let params0 := DomValue.default
          match j_buffer with
          | some array =>
            if j_length > 0 then
              if j_length > env.stackLimit then
                { outcome := Outcome.stackOverflow
                  world := w
                  trace := t0 }
              else
                let params_buffer := env.GetByteArrayRegion array j_offset j_length
                let deserializer := Deserializer.mk params_buffer j_length 0
                let header := env.ReadHeader deserializer
                let object := env.ReadObject header.2 params0
                let params := object.2.1
                { outcome := Outcome.returned
                  world := w
                  trace := t0 ++ [Call.GetByteArrayRegion array j_offset j_length,
                    Call.MakeDeserializer params_buffer j_length, Call.ReadHeader header.1,
                    Call.ReadObject object.1,
                    Call.InvokeCallback callback (DomArgument.mk params)] }
            else
              { outcome := Outcome.returned
                world := w
                trace := t0 ++ [Call.InvokeCallback callback (DomArgument.mk params0)] }
          | none =>
            { outcome := Outcome.returned
              world := w
              trace := t0 ++ [Call.InvokeCallback callback (DomArgument.mk params0)] }

/-- The entry point `OnReceivedEvent(j_env, j_object, j_runtime_id, j_dom_id, j_event_name,
j_buffer, j_offset, j_length, j_use_capture, j_use_bubble)`.  A null `j_buffer` is `none`.  A
supplied buffer is copied into the stack array `jbyte params_buffer[j_length]`, whose size is not
bounded: beyond `stackLimit` the call ends in a stack overflow, before anything is copied or
decoded.  The values `ReadHeader` and `ReadObject` report are not inspected. -/
def OnReceivedEvent (env : Collaborators) (w : World) (j_runtime_id : Int) (j_dom_id : Int)
    (j_event_name : jstring) (j_buffer : Option (List Int)) (j_offset j_length : Int)
    (j_use_capture j_use_bubble : Nat) : Result :=
  match w.Find j_runtime_id with
  | none =>
    { outcome := Outcome.returned
      world := w
      trace := [Call.RuntimeFind j_runtime_id, Call.Log "OnReceivedEvent j_runtime_id invalid"] }
  | some scope =>
    match scope.domManager with
    | none =>
      { outcome := Outcome.returned
        world := w
        trace := [Call.RuntimeFind j_runtime_id, Call.GetScope, Call.GetDomManager,
          Call.Log "OnReceivedEvent dom_manager is nullptr"] }
    | some dom_manager =>
      match dom_manager.GetNode (toNodeId j_dom_id) with
      | none =>
        { outcome := Outcome.returned
          world := w
          trace := [Call.RuntimeFind j_runtime_id, Call.GetScope, Call.GetDomManager,
            Call.GetNode (toNodeId j_dom_id),
            Call.LogInt "OnReceivedEvent DomNode not found for id: " j_dom_id] }
      | some _ =>
        let node := toNodeId j_dom_id
        let t0 := [Call.RuntimeFind j_runtime_id, Call.GetScope, Call.GetDomManager,
          Call.GetNode (toNodeId j_dom_id)]
        let event_name := env.GetStringUTFChars j_event_name
        match j_buffer with
        | some array =>
          if j_length > 0 then
            if j_length > env.stackLimit then
              { outcome := Outcome.stackOverflow
                world := w
                trace := t0 }
            else
              let params_buffer := env.GetByteArrayRegion array j_offset j_length
              let params0 := DomValue.default
              let deserializer := Deserializer.mk params_buffer j_length 0
              let header := env.ReadHeader deserializer
              let object := env.ReadObject header.2 params0
              let params := some object.2.1
              { outcome := Outcome.returned
                world := w
                trace := t0 ++ [Call.GetByteArrayRegion array j_offset j_length,
                  Call.MakeDeserializer params_buffer j_length, Call.ReadHeader header.1,
                  Call.ReadObject object.1, Call.GetStringUTFChars j_event_name,
                  Call.HandleEvent node (DomEvent.mk event_name node
                    (jbooleanToBool j_use_capture) (jbooleanToBool j_use_bubble) params)] }
          else
            { outcome := Outcome.returned
              world := w
              trace := t0 ++ [Call.GetStringUTFChars j_event_name,
                Call.HandleEvent node (DomEvent.mk event_name node (jbooleanToBool j_use_capture)
                  (jbooleanToBool j_use_bubble) none)] }
        | none =>
          { outcome := Outcome.returned
            world := w
            trace := t0 ++ [Call.GetStringUTFChars j_event_name,
              Call.HandleEvent node (DomEvent.mk event_name node (jbooleanToBool j_use_capture)
                (jbooleanToBool j_use_bubble) none)] }

/-! ## Reading a trace -/

/-- The callback invocations of a trace, in order: the callback and the argument it was given. -/
def callbackInvocations : List Call → List (Callback × DomArgument)
  | [] => []
  | Call.InvokeCallback cb arg :: rest => (cb, arg) :: callbackInvocations rest
  | _ :: rest => callbackInvocations rest

/-- The `HandleEvent` calls of a trace, in order: the receiving node and the event. -/
def handleEvents : List Call → List (Nat × DomEvent)
  | [] => []
  | Call.HandleEvent node ev :: rest => (node, ev) :: handleEvents rest
  | _ :: rest => handleEvents rest

/-- Whether a call belongs to decoding a buffer: copying it out of the Java array, constructing a
deserializer on it, `ReadHeader`, `ReadObject`. -/
def Call.isDecode : Call → Bool
  | Call.GetByteArrayRegion _ _ _ => true
  | Call.MakeDeserializer _ _ => true
  | Call.ReadHeader _ => true
  | Call.ReadObject _ => true
  | _ => false

/-- The decoding calls of a trace, in order. -/
def decodeCalls (t : List Call) : List Call := t.filter Call.isDecode

/-- Whether a call is a lookup in a registry or table: `GetNode` or `GetCallback`. -/
def Call.isLookup : Call → Bool
  | Call.GetNode _ => true
  | Call.GetCallback _ => true
  | _ => false

/-- Whether a call constructs a render manager or is one of the setters of the render binding:
`SetRenderManager` (of the scope or of the DOM manager), `SetDensity`, `SetScaleFactor`,
`SetDelegateTaskRunner`, `SetRootSize`, `DoLayout`. -/
def Call.isMutation : Call → Bool
  | Call.MakeHippyRenderManager _ _ => true
  | Call.SetDensity _ _ => true
  | Call.ScopeSetRenderManager _ => true
  | Call.SetScaleFactor _ => true
  | Call.DomSetRenderManager _ => true
  | Call.SetDelegateTaskRunner _ => true
  | Call.SetRootSize _ _ => true
  | Call.DoLayout => true
  | _ => false

/-- Whether a call is a `DoLayout`. -/
def Call.isDoLayout : Call → Bool
  | Call.DoLayout => true
  | _ => false

/-- The `SetRootSize` calls of a trace, in order, with their arguments. -/
def setRootSizes : List Call → List (jfloat × jfloat)
  | [] => []
  | Call.SetRootSize width height :: rest => (width, height) :: setRootSizes rest
  | _ :: rest => setRootSizes rest

/-- The DOM manager of runtime `j_runtime_id` in a state, if the handle resolves and the DOM
manager is present. -/
def World.domManagerOf (w : World) (j_runtime_id : Int) : Option DomManager :=
  (w.Find j_runtime_id).bind Scope.domManager

/-- The deserializer `DoCallBack` and `OnReceivedEvent` construct on a supplied buffer: on the bytes
`GetByteArrayRegion` copied out, with the given length, at position 0. -/
def deserializerOn (env : Collaborators) (array : List Int) (j_offset j_length : Int) :
    Deserializer :=
  Deserializer.mk (env.GetByteArrayRegion array j_offset j_length) j_length 0

/-- Whether decoding a supplied buffer fails: `ReadHeader` rejects the header, or `ReadObject`,
called on the state `ReadHeader` left and on a default-constructed value, reports a failure. -/
def decodeFails (env : Collaborators) (array : List Int) (j_offset j_length : Int) : Bool :=
  !(env.ReadHeader (deserializerOn env array j_offset j_length)).1 ||
  !(env.ReadObject (env.ReadHeader (deserializerOn env array j_offset j_length)).2
      DomValue.default).1

/-- The value in `params` after the decoding statements of `DoCallBack` and `OnReceivedEvent` on a
supplied buffer: what `ReadObject`, called on the state `ReadHeader` left, made of a
default-constructed `DomValue`. -/
def decodedParams (env : Collaborators) (array : List Int) (j_offset j_length : Int) : DomValue :=
  (env.ReadObject (env.ReadHeader (deserializerOn env array j_offset j_length)).2
    DomValue.default).2.1

/-- A call was a no-op on a state: it returned, left the state as it was, constructed no render
manager and called no setter, looked up no node and no callback, decoded no buffer, and invoked no
callback and no `HandleEvent`. -/
def Result.isNoOp (r : Result) (w : World) : Prop :=
  r.outcome = Outcome.returned ∧ r.world = w ∧
  r.trace.filter Call.isMutation = [] ∧ r.trace.filter Call.isLookup = [] ∧
  decodeCalls r.trace = [] ∧ callbackInvocations r.trace = [] ∧ handleEvents r.trace = []

/-! ## An example state

A concrete state and concrete collaborators, on which the entry points are evaluated. -/

/-- An example node: it has a layout node and one callback, registered under `onClick`. -/
def exampleNode : DomNode :=
  { layoutNode := some { scaleFactor := { bits := 0 } }
    callbacks := [("onClick", { handle := 5 })] }

/-- An example DOM manager: the root node has id 0, and nodes 0 and 7 exist. -/
def exampleDomManager : DomManager :=
  { rootId := 0
    nodes := fun k => if k = 0 ∨ k = 7 then some exampleNode else none
    rootSize := ({ bits := 0 }, { bits := 0 })
    layoutPasses := 0
    renderManager := none
    delegateTaskRunner := none }

/-- An example scope with a DOM manager and a task runner. -/
def exampleScope : Scope :=
  { domManager := some exampleDomManager, taskRunner := some 3, renderManager := none }

/-- An example scope whose DOM manager is absent. -/
def bareScope : Scope :=
  { domManager := none, taskRunner := some 4, renderManager := none }

/-- An example scope whose DOM manager has a root id, 5, under which no node is registered. -/
def rootlessScope : Scope :=
  { domManager := some { exampleDomManager with rootId := 5 }
    taskRunner := some 3
    renderManager := none }

/-- An example scope whose root node has no layout node. -/
def layoutlessScope : Scope :=
  { domManager := some { exampleDomManager with
      nodes := fun k => if k = 0 then some { layoutNode := none, callbacks := [] } else none }
    taskRunner := some 3
    renderManager := none }

/-- An example state: handle 1 resolves to `exampleScope`, handle 2 to `bareScope`, handle 3 to
`rootlessScope`, handle 4 to `layoutlessScope`, no other handle resolves, and no render manager has
been allocated. -/
def exampleWorld : World :=
  { runtimes := fun k =>
      if k = 1 then some exampleScope else if k = 2 then some bareScope
      else if k = 3 then some rootlessScope else if k = 4 then some layoutlessScope else none
    renderManagers := [] }

/-- Example collaborators.  The stack takes an array of at most 8 MiB.  Strings convert code unit
by code unit.  `GetByteArrayRegion` yields the
requested region of the array, each byte read as unsigned.  `ReadHeader` accepts a buffer that
starts with the tag byte `0xFF` followed by a version byte of at most 13, and moves past both; it
rejects any other buffer and leaves the position where it was.  `ReadObject` decodes the one-byte
tags `0x30` (null), `0x54` (true) and `0x46` (false) at the current position and rejects anything
else, leaving the value as it was. -/
def exampleCollaborators : Collaborators :=
  { stackLimit := 8388608
    GetStringUTFChars := fun s => String.mk (s.units.map Char.ofNat)
    GetByteArrayRegion := fun array start len =>
      ((array.drop start.toNat).take len.toNat).map fun b => (b % 256).toNat
    ReadHeader := fun d =>
      match d.buffer with
      | 0xFF :: version :: _ =>
        if version ≤ 13 then (true, { d with position := 2 }) else (false, d)
      | _ => (false, d)
    ReadObject := fun d value =>
      match d.buffer.drop d.position with
      | 0x30 :: _ => (true, DomValue.null, { d with position := d.position + 1 })
      | 0x54 :: _ => (true, DomValue.boolean true, { d with position := d.position + 1 })
      | 0x46 :: _ => (true, DomValue.boolean false, { d with position := d.position + 1 })
      | _ => (false, value, d) }

/-- A Java byte array of 16 MiB, every byte the tag of `true`. -/
def oversizedArray : List Int := List.replicate 16777216 0x54

/-- The Java string `onClick`. -/
def onClick : jstring := { units := [111, 110, 67, 108, 105, 99, 107] }

/-- The Java string `onScroll`. -/
def onScroll : jstring := { units := [111, 110, 83, 99, 114, 111, 108, 108] }

/-! ## Theorems -/

/-- C3: for a runtime handle that `Runtime::Find` does not resolve, each of the four entry points
(`CreateNativeRenderDelegate`, `UpdateRootSize`, `DoCallBack`, `OnReceivedEvent`) returns
immediately (its whole trace is the failed lookup and the warning) and is a no-op: the state is
unchanged, no render manager is constructed, no setter is called, no node is looked up, no buffer is
decoded, and no callback and no `HandleEvent` is invoked. -/
theorem unresolved_handle_is_noop (env : Collaborators) (w : World) (j_runtime_id : Int)
    (j_object : jobject) (j_density j_width j_height : jfloat) (j_dom_id : Int) (j_name : jstring)
    (j_buffer : Option (List Int)) (j_offset j_length : Int) (j_use_capture j_use_bubble : Nat)
    (h : w.Find j_runtime_id = none) :
    ((CreateNativeRenderDelegate w j_object j_runtime_id j_density).trace =
        [Call.RuntimeFind j_runtime_id,
          Call.Log "CreateNativeRenderDelegate j_runtime_id invalid"] ∧
      (CreateNativeRenderDelegate w j_object j_runtime_id j_density).isNoOp w) ∧
    ((UpdateRootSize w j_runtime_id j_width j_height).trace =
        [Call.RuntimeFind j_runtime_id, Call.Log "UpdateRootSize j_runtime_id invalid"] ∧
      (UpdateRootSize w j_runtime_id j_width j_height).isNoOp w) ∧
    ((DoCallBack env w j_runtime_id j_dom_id j_name j_buffer j_offset j_length).trace =
        [Call.RuntimeFind j_runtime_id, Call.Log "DoCallBack j_runtime_id invalid"] ∧
      (DoCallBack env w j_runtime_id j_dom_id j_name j_buffer j_offset j_length).isNoOp w) ∧
    ((OnReceivedEvent env w j_runtime_id j_dom_id j_name j_buffer j_offset j_length
          j_use_capture j_use_bubble).trace =
        [Call.RuntimeFind j_runtime_id, Call.Log "OnReceivedEvent j_runtime_id invalid"] ∧
      (OnReceivedEvent env w j_runtime_id j_dom_id j_name j_buffer j_offset j_length
          j_use_capture j_use_bubble).isNoOp w) := by
  simp [CreateNativeRenderDelegate, UpdateRootSize, DoCallBack, OnReceivedEvent, h,
    Result.isNoOp, decodeCalls, callbackInvocations, handleEvents, Call.isMutation, Call.isLookup,
    Call.isDecode]

/-- Witness of C3 on the example state, where handle 9 does not resolve: the density-binding call
leaves the state as it was. -/
theorem unresolved_handle_is_noop_witness :
    exampleWorld.Find 9 = none ∧
    (CreateNativeRenderDelegate exampleWorld { ref := 0 } 9 { bits := 1 }).world = exampleWorld ∧
    callbackInvocations (DoCallBack exampleCollaborators exampleWorld 9 7 onClick
      (some [0x30]) 0 1).trace = [] :=
  have h := unresolved_handle_is_noop exampleCollaborators exampleWorld 9 { ref := 0 }
    { bits := 1 } { bits := 2 } { bits := 3 } 7 onClick (some [0x30]) 0 1 1 1 rfl
  ⟨rfl, h.1.2.2.1, h.2.2.1.2.2.2.2.2.2.1⟩

/-- C2: in a `DoCallBack` call whose runtime handle resolves, a miss in the resolution chain ends
the call before anything is decoded or invoked, and the checks are made in the order DOM manager,
node, callback.  If the DOM manager is absent no node and no callback is looked up; if the node is
not found no callback is looked up; if the node has no callback under the name the call stops
there.  In each case the call returns with the state unchanged, having decoded no buffer and invoked
no callback. -/
theorem DoCallBack_resolution_miss (env : Collaborators) (w : World) (j_runtime_id j_dom_id : Int)
    (j_func_name : jstring) (j_buffer : Option (List Int)) (j_offset j_length : Int)
    (scope : Scope) (hfind : w.Find j_runtime_id = some scope) :
    (scope.domManager = none →
      (DoCallBack env w j_runtime_id j_dom_id j_func_name j_buffer j_offset j_length).trace =
        [Call.RuntimeFind j_runtime_id, Call.GetScope, Call.GetDomManager,
          Call.Log "DoCallBack dom_manager is nullptr"]) ∧
    (∀ dm, scope.domManager = some dm → dm.GetNode (toNodeId j_dom_id) = none →
      (DoCallBack env w j_runtime_id j_dom_id j_func_name j_buffer j_offset j_length).trace =
        [Call.RuntimeFind j_runtime_id, Call.GetScope, Call.GetDomManager,
          Call.GetNode (toNodeId j_dom_id),
          Call.LogInt "DoCallBack DomNode not found for id: " j_dom_id]) ∧
    (∀ dm node, scope.domManager = some dm → dm.GetNode (toNodeId j_dom_id) = some node →
      node.GetCallback (env.GetStringUTFChars j_func_name) = none →
      (DoCallBack env w j_runtime_id j_dom_id j_func_name j_buffer j_offset j_length).trace =
        [Call.RuntimeFind j_runtime_id, Call.GetScope, Call.GetDomManager,
          Call.GetNode (toNodeId j_dom_id), Call.GetStringUTFChars j_func_name,
          Call.GetCallback (env.GetStringUTFChars j_func_name),
          Call.LogString "DoCallBack Callback not found for func_name: "
            (env.GetStringUTFChars j_func_name)]) ∧
    ((scope.domManager = none ∨
        ∃ dm, scope.domManager = some dm ∧
          (dm.GetNode (toNodeId j_dom_id) = none ∨
            ∃ node, dm.GetNode (toNodeId j_dom_id) = some node ∧
              node.GetCallback (env.GetStringUTFChars j_func_name) = none)) →
      (DoCallBack env w j_runtime_id j_dom_id j_func_name j_buffer j_offset j_length).outcome =
        Outcome.returned ∧
      (DoCallBack env w j_runtime_id j_dom_id j_func_name j_buffer j_offset j_length).world = w ∧
      decodeCalls
        (DoCallBack env w j_runtime_id j_dom_id j_func_name j_buffer j_offset j_length).trace =
        [] ∧
      callbackInvocations
        (DoCallBack env w j_runtime_id j_dom_id j_func_name j_buffer j_offset j_length).trace =
        []) := by
  refine ⟨?_, ?_, ?_, ?_⟩
  · intro hdm
    simp [DoCallBack, hfind, hdm]
  · intro dm hdm hnode
    simp [DoCallBack, hfind, hdm, hnode]
  · intro dm node hdm hnode hcb
    simp [DoCallBack, hfind, hdm, hnode, hcb]
  · rintro (hdm | ⟨dm, hdm, hnode | ⟨node, hnode, hcb⟩⟩)
    · simp [DoCallBack, hfind, hdm, decodeCalls, callbackInvocations, Call.isDecode]
    · simp [DoCallBack, hfind, hdm, hnode, decodeCalls, callbackInvocations, Call.isDecode]
    · simp [DoCallBack, hfind, hdm, hnode, hcb, decodeCalls, callbackInvocations, Call.isDecode]

/-- Witness of C2 on the example state: node 7 exists but has no callback named `onScroll`, so the
call stops after the callback lookup although a buffer was supplied. -/
theorem DoCallBack_resolution_miss_witness :
    exampleWorld.Find 1 = some exampleScope ∧
    (DoCallBack exampleCollaborators exampleWorld 1 7 onScroll (some [0xFF, 13, 0x54]) 0 3).trace =
      [Call.RuntimeFind 1, Call.GetScope, Call.GetDomManager, Call.GetNode 7,
        Call.GetStringUTFChars onScroll, Call.GetCallback "onScroll",
        Call.LogString "DoCallBack Callback not found for func_name: " "onScroll"] :=
  ⟨rfl, (DoCallBack_resolution_miss exampleCollaborators exampleWorld 1 7 onScroll
    (some [0xFF, 13, 0x54]) 0 3 exampleScope rfl).2.2.1 exampleDomManager exampleNode rfl rfl rfl⟩

/-- C4: in a `DoCallBack` call whose handle, DOM manager, node and callback all resolve and whose
buffer is absent or empty (`j_buffer` null or `j_length <= 0`), nothing is decoded and the callback
is invoked exactly once, with a `DomArgument` wrapping the default-constructed `DomValue`; that
value is the explicit "no parameters" state and is not the empty object. -/
theorem DoCallBack_absent_buffer (env : Collaborators) (w : World) (j_runtime_id j_dom_id : Int)
    (j_func_name : jstring) (j_buffer : Option (List Int)) (j_offset j_length : Int)
    (scope : Scope) (dm : DomManager) (node : DomNode) (callback : Callback)
    (hfind : w.Find j_runtime_id = some scope) (hdm : scope.domManager = some dm)
    (hnode : dm.GetNode (toNodeId j_dom_id) = some node)
    (hcb : node.GetCallback (env.GetStringUTFChars j_func_name) = some callback)
    (hbuf : j_buffer = none ∨ j_length ≤ 0) :
    callbackInvocations
        (DoCallBack env w j_runtime_id j_dom_id j_func_name j_buffer j_offset j_length).trace =
      [(callback, DomArgument.mk DomValue.default)] ∧
    decodeCalls
        (DoCallBack env w j_runtime_id j_dom_id j_func_name j_buffer j_offset j_length).trace =
      [] ∧
    (DoCallBack env w j_runtime_id j_dom_id j_func_name j_buffer j_offset j_length).outcome =
      Outcome.returned ∧
    DomValue.default ≠ DomValue.emptyObject := by
  have hne : DomValue.default ≠ DomValue.emptyObject := by
    intro h
    cases h
  rcases hbuf with hnone | hlen
  · subst hnone
    simp [DoCallBack, hfind, hdm, hnode, hcb, decodeCalls, callbackInvocations, Call.isDecode, hne]
  · have hlen2 : ¬ (j_length > 0) := by omega
    cases j_buffer <;>
      simp [DoCallBack, hfind, hdm, hnode, hcb, decodeCalls, callbackInvocations, Call.isDecode,
        hne, hlen2]

/-- Witness of C4 on the example state: `onClick` on node 7 with a null buffer. -/
theorem DoCallBack_absent_buffer_witness :
    callbackInvocations (DoCallBack exampleCollaborators exampleWorld 1 7 onClick none 0 0).trace =
      [({ handle := 5 }, DomArgument.mk DomValue.undefined)] :=
  (DoCallBack_absent_buffer exampleCollaborators exampleWorld 1 7 onClick none 0 0
    exampleScope exampleDomManager exampleNode { handle := 5 } rfl rfl rfl rfl (Or.inl rfl)).1

/-- C5, refuted as stated: on the example state a supplied, non-empty buffer does not always put a
present decoded value into an event.  With the one-byte buffer `[0x00]` decoding fails and the
event carries a present value that is the untouched default-constructed `DomValue`, not a decoded
one; with a 16 MiB buffer the stack array overruns the stack and no event is handed over at all. -/
theorem OnReceivedEvent_present_value_not_decoded :
    decodeFails exampleCollaborators [0x00] 0 1 = true ∧
    (handleEvents (OnReceivedEvent exampleCollaborators exampleWorld 1 7 onClick
      (some [0x00]) 0 1 1 1).trace).map (fun call => call.2.params) =
      [some DomValue.default] ∧
    (OnReceivedEvent exampleCollaborators exampleWorld 1 7 onClick
      (some oversizedArray) 0 16777216 1 1).outcome = Outcome.stackOverflow ∧
    handleEvents (OnReceivedEvent exampleCollaborators exampleWorld 1 7 onClick
      (some oversizedArray) 0 16777216 1 1).trace = [] :=
  ⟨rfl, rfl, rfl, rfl⟩

/-- C5, amended: in an `OnReceivedEvent` call whose handle, DOM manager and node resolve and whose
stack array, when a non-empty buffer is supplied, fits the stack (`j_length` at most `stackLimit`),
exactly one event is handed to `HandleEvent`, and its parameters are the absent marker (the null
pointer, which is no `DomValue` at all) if and only if the buffer is absent or empty (`j_buffer`
null or `j_length <= 0`).  When a non-empty buffer is supplied the event carries a present value:
the `DomValue` as `ReadObject`, called after `ReadHeader` on that buffer, left it, starting from a
default-constructed value, which is the decoded value when decoding succeeds. -/
theorem OnReceivedEvent_params_absent_iff (env : Collaborators) (w : World)
    (j_runtime_id j_dom_id : Int) (j_event_name : jstring) (j_buffer : Option (List Int))
    (j_offset j_length : Int) (j_use_capture j_use_bubble : Nat)
    (scope : Scope) (dm : DomManager) (node : DomNode)
    (hfind : w.Find j_runtime_id = some scope) (hdm : scope.domManager = some dm)
    (hnode : dm.GetNode (toNodeId j_dom_id) = some node)
    (hfit : j_buffer = none ∨ j_length ≤ env.stackLimit) :
    ∃ receiver event,
      handleEvents (OnReceivedEvent env w j_runtime_id j_dom_id j_event_name j_buffer j_offset
        j_length j_use_capture j_use_bubble).trace = [(receiver, event)] ∧
      (event.params = none ↔ (j_buffer = none ∨ j_length ≤ 0)) ∧
      (∀ array, j_buffer = some array → j_length > 0 →
        event.params = some (decodedParams env array j_offset j_length)) := by
  cases j_buffer with
  | none =>
    exact ⟨toNodeId j_dom_id,
      DomEvent.mk (env.GetStringUTFChars j_event_name) (toNodeId j_dom_id)
        (jbooleanToBool j_use_capture) (jbooleanToBool j_use_bubble) none,
      by simp [OnReceivedEvent, hfind, hdm, hnode, handleEvents], by simp, by simp⟩
  | some array =>
    by_cases hlen : j_length > 0
    · have hlen2 : ¬ (j_length ≤ 0) := by omega
      have hfit2 : ¬ (j_length > (env.stackLimit : Int)) := by
        rcases hfit with hnone | hle
        · cases hnone
        · omega
      exact ⟨toNodeId j_dom_id,
        DomEvent.mk (env.GetStringUTFChars j_event_name) (toNodeId j_dom_id)
          (jbooleanToBool j_use_capture) (jbooleanToBool j_use_bubble)
          (some (decodedParams env array j_offset j_length)),
        by simp [OnReceivedEvent, hfind, hdm, hnode, handleEvents, hlen, hfit2, decodedParams,
          deserializerOn],
        by simp [hlen2], by simp⟩
    · have hlen2 : j_length ≤ 0 := by omega
      exact ⟨toNodeId j_dom_id,
        DomEvent.mk (env.GetStringUTFChars j_event_name) (toNodeId j_dom_id)
          (jbooleanToBool j_use_capture) (jbooleanToBool j_use_bubble) none,
        by simp [OnReceivedEvent, hfind, hdm, hnode, handleEvents, hlen],
        by simp [hlen2], by simp [hlen]⟩

/-- Witness of the amended C5 on the example state: a three-byte buffer (header, then the tag of
`true`) sent to node 7 reaches `HandleEvent` as a present value. -/
theorem OnReceivedEvent_params_absent_iff_witness :
    exampleWorld.Find 1 = some exampleScope ∧
    (3 : Int) ≤ exampleCollaborators.stackLimit ∧
    (handleEvents (OnReceivedEvent exampleCollaborators exampleWorld 1 7 onClick
      (some [-1, 13, 0x54]) 0 3 1 0).trace).map (fun call => call.2.params) =
      [some (DomValue.boolean true)] := by
  obtain ⟨receiver, event, htrace, _, hpresent⟩ :=
    OnReceivedEvent_params_absent_iff exampleCollaborators exampleWorld 1 7 onClick
      (some [-1, 13, 0x54]) 0 3 1 0 exampleScope exampleDomManager exampleNode rfl rfl rfl
      (Or.inr (by decide))
  refine ⟨rfl, by decide, ?_⟩
  rw [htrace, List.map_cons, List.map_nil, hpresent [-1, 13, 0x54] rfl (by decide)]
  rfl

/-- C10, refuted as stated: on the example state, handle 1 and node 7 resolve, yet with a supplied
16 MiB buffer the stack array overruns the stack and `HandleEvent` is not called. -/
theorem OnReceivedEvent_oversized_buffer_no_event :
    exampleWorld.Find 1 = some exampleScope ∧
    exampleDomManager.GetNode (toNodeId 7) = some exampleNode ∧
    (16777216 : Int) > exampleCollaborators.stackLimit ∧
    handleEvents (OnReceivedEvent exampleCollaborators exampleWorld 1 7 onScroll
      (some oversizedArray) 0 16777216 1 0).trace = [] ∧
    (OnReceivedEvent exampleCollaborators exampleWorld 1 7 onScroll
      (some oversizedArray) 0 16777216 1 0).outcome = Outcome.stackOverflow :=
  ⟨rfl, rfl, by decide, rfl, rfl⟩

/-- C10, amended: in an `OnReceivedEvent` call whose handle resolves, if the DOM manager is absent
or no node has the given id, `HandleEvent` is not called and no buffer is decoded (the call returns
with the state unchanged); otherwise, provided the stack array of a supplied non-empty buffer fits
the stack (`j_length` at most `stackLimit`), `HandleEvent` is called exactly once, on the node with
the given id, with one event whose type is the given event name, whose target is that same node,
and whose capture and bubble flags are the given `j_use_capture` and `j_use_bubble`, in that
order. -/
theorem OnReceivedEvent_dispatch (env : Collaborators) (w : World)
    (j_runtime_id j_dom_id : Int) (j_event_name : jstring) (j_buffer : Option (List Int))
    (j_offset j_length : Int) (j_use_capture j_use_bubble : Nat)
    (scope : Scope) (hfind : w.Find j_runtime_id = some scope) :
    ((scope.domManager = none ∨
        ∃ dm, scope.domManager = some dm ∧ dm.GetNode (toNodeId j_dom_id) = none) →
      handleEvents (OnReceivedEvent env w j_runtime_id j_dom_id j_event_name j_buffer j_offset
        j_length j_use_capture j_use_bubble).trace = [] ∧
      decodeCalls (OnReceivedEvent env w j_runtime_id j_dom_id j_event_name j_buffer j_offset
        j_length j_use_capture j_use_bubble).trace = [] ∧
      (OnReceivedEvent env w j_runtime_id j_dom_id j_event_name j_buffer j_offset
        j_length j_use_capture j_use_bubble).outcome = Outcome.returned ∧
      (OnReceivedEvent env w j_runtime_id j_dom_id j_event_name j_buffer j_offset
        j_length j_use_capture j_use_bubble).world = w) ∧
    (∀ dm node, scope.domManager = some dm → dm.GetNode (toNodeId j_dom_id) = some node →
      (j_buffer = none ∨ j_length ≤ env.stackLimit) →
      (OnReceivedEvent env w j_runtime_id j_dom_id j_event_name j_buffer j_offset
        j_length j_use_capture j_use_bubble).outcome = Outcome.returned ∧
      (handleEvents (OnReceivedEvent env w j_runtime_id j_dom_id j_event_name j_buffer j_offset
          j_length j_use_capture j_use_bubble).trace).map
            (fun call => (call.1, call.2.type, call.2.target, call.2.useCapture,
              call.2.useBubble)) =
        [(toNodeId j_dom_id, env.GetStringUTFChars j_event_name, toNodeId j_dom_id,
          jbooleanToBool j_use_capture, jbooleanToBool j_use_bubble)]) := by
  refine ⟨?_, ?_⟩
  · rintro (hdm | ⟨dm, hdm, hnode⟩)
    · simp [OnReceivedEvent, hfind, hdm, handleEvents, decodeCalls, Call.isDecode]
    · simp [OnReceivedEvent, hfind, hdm, hnode, handleEvents, decodeCalls, Call.isDecode]
  · intro dm node hdm hnode hfit
    cases j_buffer with
    | none => simp [OnReceivedEvent, hfind, hdm, hnode, handleEvents]
    | some array =>
      have hfit2 : ¬ (j_length > (env.stackLimit : Int)) := by
        rcases hfit with hnone | hle
        · cases hnone
        · omega
      by_cases hlen : j_length > 0 <;>
        simp [OnReceivedEvent, hfind, hdm, hnode, handleEvents, hlen, hfit2]

/-- Witness of the amended C10 on the example state: an event for node 7 with capture on and bubble
off, and a three-byte buffer, is handed to node 7 with exactly those flags. -/
theorem OnReceivedEvent_dispatch_witness :
    exampleWorld.Find 1 = some exampleScope ∧
    (3 : Int) ≤ exampleCollaborators.stackLimit ∧
    (handleEvents (OnReceivedEvent exampleCollaborators exampleWorld 1 7 onScroll
      (some [-1, 13, 0x54]) 0 3 1 0).trace).map
        (fun call => (call.1, call.2.type, call.2.target, call.2.useCapture, call.2.useBubble)) =
      [(7, "onScroll", 7, true, false)] :=
  ⟨rfl, by decide, ((OnReceivedEvent_dispatch exampleCollaborators exampleWorld 1 7 onScroll
    (some [-1, 13, 0x54]) 0 3 1 0 exampleScope rfl).2 exampleDomManager exampleNode rfl rfl
    (Or.inr (by decide))).2⟩

/-- C1, refuted as stated: on the example state, with the one-byte buffer `[0x00]`, the header is
rejected and `ReadObject` fails as well, yet `DoCallBack` invokes the callback (with the default
value) and `OnReceivedEvent` calls `HandleEvent` (with a present default value). -/
theorem decode_failure_still_invokes :
    decodeFails exampleCollaborators [0x00] 0 1 = true ∧
    callbackInvocations (DoCallBack exampleCollaborators exampleWorld 1 7 onClick
      (some [0x00]) 0 1).trace = [({ handle := 5 }, DomArgument.mk DomValue.default)] ∧
    handleEvents (OnReceivedEvent exampleCollaborators exampleWorld 1 7 onClick
      (some [0x00]) 0 1 1 1).trace =
      [(7, { type := "onClick", target := 7, useCapture := true, useBubble := true,
             params := some DomValue.default })] :=
  ⟨rfl, rfl, rfl⟩

/-- C1, amended: in `DoCallBack` and `OnReceivedEvent`, for every call whose resolution chain
succeeds and whose buffer is supplied (non-null, length > 0) and fits the stack array (`j_length`
at most `stackLimit`), the call returns and the consumer is invoked exactly once whatever
`ReadHeader` and `ReadObject` report: the callback receives, and the event carries, the `DomValue`
as `ReadObject` left it, starting from a default-constructed value. -/
theorem supplied_buffer_always_invokes (env : Collaborators) (w : World)
    (j_runtime_id j_dom_id : Int) (j_name : jstring) (array : List Int)
    (j_offset j_length : Int) (j_use_capture j_use_bubble : Nat)
    (scope : Scope) (dm : DomManager) (node : DomNode)
    (hfind : w.Find j_runtime_id = some scope) (hdm : scope.domManager = some dm)
    (hnode : dm.GetNode (toNodeId j_dom_id) = some node) (hlen : j_length > 0)
    (hfit : j_length ≤ env.stackLimit) :
    (∀ callback, node.GetCallback (env.GetStringUTFChars j_name) = some callback →
      (DoCallBack env w j_runtime_id j_dom_id j_name (some array) j_offset j_length).outcome =
        Outcome.returned ∧
      callbackInvocations
          (DoCallBack env w j_runtime_id j_dom_id j_name (some array) j_offset j_length).trace =
        [(callback, DomArgument.mk (decodedParams env array j_offset j_length))]) ∧
    (OnReceivedEvent env w j_runtime_id j_dom_id j_name (some array) j_offset
        j_length j_use_capture j_use_bubble).outcome = Outcome.returned ∧
    handleEvents (OnReceivedEvent env w j_runtime_id j_dom_id j_name (some array) j_offset
        j_length j_use_capture j_use_bubble).trace =
      [(toNodeId j_dom_id,
        { type := env.GetStringUTFChars j_name
          target := toNodeId j_dom_id
          useCapture := jbooleanToBool j_use_capture
          useBubble := jbooleanToBool j_use_bubble
          params := some (decodedParams env array j_offset j_length) })] := by
  have hfit2 : ¬ (j_length > (env.stackLimit : Int)) := by omega
  refine ⟨?_, ?_, ?_⟩
  · intro callback hcb
    simp [DoCallBack, hfind, hdm, hnode, hcb, hlen, hfit2, callbackInvocations, decodedParams,
      deserializerOn]
  · simp [OnReceivedEvent, hfind, hdm, hnode, hlen, hfit2]
  · simp [OnReceivedEvent, hfind, hdm, hnode, hlen, hfit2, handleEvents, decodedParams,
      deserializerOn]

/-- Witness of the amended C1 on the example state: a well-formed buffer (header, then the tag of
`true`) reaches the callback as `true`. -/
theorem supplied_buffer_always_invokes_witness :
    (3 : Int) > 0 ∧
    (3 : Int) ≤ exampleCollaborators.stackLimit ∧
    callbackInvocations (DoCallBack exampleCollaborators exampleWorld 1 7 onClick
      (some [-1, 13, 0x54]) 0 3).trace =
      [({ handle := 5 }, DomArgument.mk (DomValue.boolean true))] :=
  ⟨by decide, by decide,
    ((supplied_buffer_always_invokes exampleCollaborators exampleWorld 1 7 onClick
      [-1, 13, 0x54] 0 3 1 1 exampleScope exampleDomManager exampleNode rfl rfl rfl
      (by decide) (by decide)).1 { handle := 5 } rfl).2⟩

/-- C6, refuted as stated: on the example state, with the one-byte buffer `[0x54]`, `ReadHeader`
rejects the header and `ReadObject` is called all the same, in `DoCallBack` and in
`OnReceivedEvent`. -/
theorem ReadObject_after_rejected_header :
    (exampleCollaborators.ReadHeader (deserializerOn exampleCollaborators [0x54] 0 1)).1 = false ∧
    decodeCalls (DoCallBack exampleCollaborators exampleWorld 1 7 onClick
      (some [0x54]) 0 1).trace =
      [Call.GetByteArrayRegion [0x54] 0 1, Call.MakeDeserializer [0x54] 1,
        Call.ReadHeader false, Call.ReadObject true] ∧
    decodeCalls (OnReceivedEvent exampleCollaborators exampleWorld 1 7 onClick
      (some [0x54]) 0 1 0 0).trace =
      [Call.GetByteArrayRegion [0x54] 0 1, Call.MakeDeserializer [0x54] 1,
        Call.ReadHeader false, Call.ReadObject true] :=
  ⟨rfl, rfl, rfl⟩

/-- C6, amended: in `DoCallBack` and `OnReceivedEvent`, for every supplied buffer (non-null,
length > 0) that fits the stack array (`j_length` at most `stackLimit`), in a call whose resolution
chain succeeds, `ReadHeader` is called exactly once and then `ReadObject` exactly once, on the
deserializer state `ReadHeader` left, whatever `ReadHeader` reported; `ReadObject` is never called
before `ReadHeader`. -/
theorem ReadObject_follows_ReadHeader (env : Collaborators) (w : World)
    (j_runtime_id j_dom_id : Int) (j_name : jstring) (array : List Int)
    (j_offset j_length : Int) (j_use_capture j_use_bubble : Nat)
    (scope : Scope) (dm : DomManager) (node : DomNode)
    (hfind : w.Find j_runtime_id = some scope) (hdm : scope.domManager = some dm)
    (hnode : dm.GetNode (toNodeId j_dom_id) = some node) (hlen : j_length > 0)
    (hfit : j_length ≤ env.stackLimit) :
    (∀ callback, node.GetCallback (env.GetStringUTFChars j_name) = some callback →
      decodeCalls
          (DoCallBack env w j_runtime_id j_dom_id j_name (some array) j_offset j_length).trace =
        [Call.GetByteArrayRegion array j_offset j_length,
          Call.MakeDeserializer (env.GetByteArrayRegion array j_offset j_length) j_length,
          Call.ReadHeader (env.ReadHeader (deserializerOn env array j_offset j_length)).1,
          Call.ReadObject (env.ReadObject
            (env.ReadHeader (deserializerOn env array j_offset j_length)).2
            DomValue.default).1]) ∧
    decodeCalls (OnReceivedEvent env w j_runtime_id j_dom_id j_name (some array) j_offset
        j_length j_use_capture j_use_bubble).trace =
      [Call.GetByteArrayRegion array j_offset j_length,
        Call.MakeDeserializer (env.GetByteArrayRegion array j_offset j_length) j_length,
        Call.ReadHeader (env.ReadHeader (deserializerOn env array j_offset j_length)).1,
        Call.ReadObject (env.ReadObject
          (env.ReadHeader (deserializerOn env array j_offset j_length)).2
          DomValue.default).1] := by
  have hfit2 : ¬ (j_length > (env.stackLimit : Int)) := by omega
  refine ⟨?_, ?_⟩
  · intro callback hcb
    simp [DoCallBack, hfind, hdm, hnode, hcb, hlen, hfit2, decodeCalls, Call.isDecode,
      deserializerOn]
  · simp [OnReceivedEvent, hfind, hdm, hnode, hlen, hfit2, decodeCalls, Call.isDecode,
      deserializerOn]

/-- Witness of the amended C6 on the example state: on a well-formed buffer `ReadHeader` succeeds
and `ReadObject` follows it. -/
theorem ReadObject_follows_ReadHeader_witness :
    (3 : Int) > 0 ∧
    (3 : Int) ≤ exampleCollaborators.stackLimit ∧
    decodeCalls (OnReceivedEvent exampleCollaborators exampleWorld 1 7 onClick
      (some [-1, 13, 0x54]) 0 3 0 1).trace =
      [Call.GetByteArrayRegion [-1, 13, 0x54] 0 3, Call.MakeDeserializer [0xFF, 13, 0x54] 3,
        Call.ReadHeader true, Call.ReadObject true] :=
  ⟨by decide, by decide,
    (ReadObject_follows_ReadHeader exampleCollaborators exampleWorld 1 7 onClick
      [-1, 13, 0x54] 0 3 0 1 exampleScope exampleDomManager exampleNode rfl rfl rfl
      (by decide) (by decide)).2⟩

/-- Writing a scope back makes its handle resolve to it. -/
theorem World.Find_store (w : World) (j_runtime_id : Int) (scope : Scope)
    (heap : List HippyRenderManager) :
    (w.store j_runtime_id scope heap).Find j_runtime_id = some scope := by
  simp [World.store, World.Find]

/-- C7: in an `UpdateRootSize` call whose handle resolves and whose DOM manager is present, the
call makes exactly one `SetRootSize` with the given width and height, followed by exactly one
`DoLayout`, and nothing else on the DOM manager; so after two successive calls with `(w1, h1)` then
`(w2, h2)` the stored root size is `(w2, h2)` and exactly two layout passes were triggered.  When
the DOM manager is absent the call does neither and changes nothing. -/
theorem UpdateRootSize_sets_size_then_layouts (w : World) (j_runtime_id : Int)
    (w1 h1 w2 h2 : jfloat) (scope : Scope) (hfind : w.Find j_runtime_id = some scope) :
    (∀ dm, scope.domManager = some dm →
      (UpdateRootSize w j_runtime_id w1 h1).outcome = Outcome.returned ∧
      (UpdateRootSize w j_runtime_id w1 h1).trace =
        [Call.RuntimeFind j_runtime_id, Call.GetScope, Call.GetDomManager,
          Call.SetRootSize w1 h1, Call.DoLayout] ∧
      (UpdateRootSize w j_runtime_id w1 h1).world.domManagerOf j_runtime_id =
        some ((dm.SetRootSize w1 h1).DoLayout) ∧
      ((UpdateRootSize w j_runtime_id w1 h1).world.domManagerOf j_runtime_id).map
        DomManager.rootSize = some (w1, h1) ∧
      ((UpdateRootSize w j_runtime_id w1 h1).world.domManagerOf j_runtime_id).map
        DomManager.layoutPasses = some (dm.layoutPasses + 1) ∧
      (UpdateRootSize (UpdateRootSize w j_runtime_id w1 h1).world j_runtime_id w2 h2).trace =
        [Call.RuntimeFind j_runtime_id, Call.GetScope, Call.GetDomManager,
          Call.SetRootSize w2 h2, Call.DoLayout] ∧
      ((UpdateRootSize (UpdateRootSize w j_runtime_id w1 h1).world j_runtime_id w2
        h2).world.domManagerOf j_runtime_id).map DomManager.rootSize = some (w2, h2) ∧
      ((UpdateRootSize (UpdateRootSize w j_runtime_id w1 h1).world j_runtime_id w2
        h2).world.domManagerOf j_runtime_id).map DomManager.layoutPasses =
        some (dm.layoutPasses + 2) ∧
      (((UpdateRootSize w j_runtime_id w1 h1).trace ++
        (UpdateRootSize (UpdateRootSize w j_runtime_id w1 h1).world j_runtime_id w2
          h2).trace).filter Call.isDoLayout).length = 2 ∧
      setRootSizes ((UpdateRootSize w j_runtime_id w1 h1).trace ++
        (UpdateRootSize (UpdateRootSize w j_runtime_id w1 h1).world j_runtime_id w2
          h2).trace) = [(w1, h1), (w2, h2)]) ∧
    (scope.domManager = none →
      (UpdateRootSize w j_runtime_id w1 h1).isNoOp w ∧
      setRootSizes (UpdateRootSize w j_runtime_id w1 h1).trace = [] ∧
      (UpdateRootSize w j_runtime_id w1 h1).trace.filter Call.isDoLayout = []) := by
  refine ⟨?_, ?_⟩
  · intro dm hdm
    have hfirst : (UpdateRootSize w j_runtime_id w1 h1).world =
        w.store j_runtime_id { scope with domManager := some ((dm.SetRootSize w1 h1).DoLayout) }
          w.renderManagers := by
      simp [UpdateRootSize, hfind, hdm]
    rw [hfirst]
    simp [UpdateRootSize, hfind, hdm, World.Find_store, World.domManagerOf, setRootSizes,
      Call.isDoLayout, DomManager.SetRootSize, DomManager.DoLayout]
  · intro hdm
    simp [UpdateRootSize, hfind, hdm, Result.isNoOp, decodeCalls, callbackInvocations,
      handleEvents, Call.isMutation, Call.isLookup, Call.isDecode, setRootSizes, Call.isDoLayout]

/-- Witness of C7 on the example state: two calls on handle 1 leave the second size and two layout
passes. -/
theorem UpdateRootSize_sets_size_then_layouts_witness :
    exampleWorld.Find 1 = some exampleScope ∧
    ((UpdateRootSize (UpdateRootSize exampleWorld 1 { bits := 10 } { bits := 20 }).world 1
      { bits := 30 } { bits := 40 }).world.domManagerOf 1).map DomManager.rootSize =
      some ({ bits := 30 }, { bits := 40 }) ∧
    ((UpdateRootSize (UpdateRootSize exampleWorld 1 { bits := 10 } { bits := 20 }).world 1
      { bits := 30 } { bits := 40 }).world.domManagerOf 1).map DomManager.layoutPasses =
      some 2 :=
  have h := (UpdateRootSize_sets_size_then_layouts exampleWorld 1 { bits := 10 } { bits := 20 }
    { bits := 30 } { bits := 40 } exampleScope rfl).1 exampleDomManager rfl
  ⟨rfl, h.2.2.2.2.2.2.1, h.2.2.2.2.2.2.2.1⟩

/-- C8: in a `CreateNativeRenderDelegate(handle, density)` call whose handle resolves and whose DOM
manager, root node and root layout node all exist, the call returns and afterwards: one render
manager has been newly constructed (at an address that was not allocated before, the earlier render
managers being untouched), bound to the given Java object and carrying the given density; that same
instance is the render manager of the scope and of the DOM manager; the layout node of the node
`GetNode(GetRootId())` has the given density as its scale factor; and the delegate task runner of
the DOM manager is the task runner of the scope. -/
theorem CreateNativeRenderDelegate_binds (w : World) (j_object : jobject) (j_runtime_id : Int)
    (j_density : jfloat) (scope : Scope) (dm : DomManager) (node : DomNode)
    (layout_node : LayoutNode)
    (hfind : w.Find j_runtime_id = some scope) (hdm : scope.domManager = some dm)
    (hnode : dm.GetNode dm.GetRootId = some node) (hlayout : node.layoutNode = some layout_node) :
    (CreateNativeRenderDelegate w j_object j_runtime_id j_density).outcome = Outcome.returned ∧
    (CreateNativeRenderDelegate w j_object j_runtime_id j_density).world.renderManagers =
      w.renderManagers ++ [{ javaRef := j_object, density := some j_density }] ∧
    w.renderManagers.get? w.renderManagers.length = none ∧
    (CreateNativeRenderDelegate w j_object j_runtime_id j_density).world.renderManagers.get?
      w.renderManagers.length = some { javaRef := j_object, density := some j_density } ∧
    ∃ scope1 dm1 node1 layout_node1,
      (CreateNativeRenderDelegate w j_object j_runtime_id j_density).world.Find j_runtime_id =
        some scope1 ∧
      scope1.renderManager = some w.renderManagers.length ∧
      scope1.domManager = some dm1 ∧
      dm1.renderManager = some w.renderManagers.length ∧
      dm1.GetNode dm1.GetRootId = some node1 ∧
      node1.layoutNode = some layout_node1 ∧
      layout_node1.scaleFactor = j_density ∧
      dm1.delegateTaskRunner = scope1.GetTaskRunner ∧
      scope1.GetTaskRunner = scope.GetTaskRunner := by
  have hworld : (CreateNativeRenderDelegate w j_object j_runtime_id j_density).world =
      w.store j_runtime_id
        { scope.SetRenderManager w.renderManagers.length with
          domManager := some (((dm.storeNode dm.GetRootId
            { node with layoutNode := some (layout_node.SetScaleFactor j_density) }).SetRenderManager
              w.renderManagers.length).SetDelegateTaskRunner
                (scope.SetRenderManager w.renderManagers.length).GetTaskRunner) }
        (w.renderManagers ++ [(HippyRenderManager.mk j_object none).SetDensity j_density]) := by
    simp [CreateNativeRenderDelegate, hfind, hdm, hnode, hlayout, Scope.SetRenderManager]
  refine ⟨?_, ?_, ?_, ?_, ?_⟩
  · simp [CreateNativeRenderDelegate, hfind, hdm, hnode, hlayout, Scope.SetRenderManager]
  · rw [hworld]
    simp [World.store, HippyRenderManager.SetDensity]
  · simp
  · rw [hworld]
    simp [World.store, HippyRenderManager.SetDensity]
  · rw [hworld, World.Find_store]
    refine ⟨_, _, { node with layoutNode := some (layout_node.SetScaleFactor j_density) },
      layout_node.SetScaleFactor j_density, rfl, ?_, rfl, ?_, ?_, rfl, ?_, ?_, ?_⟩
    · simp [Scope.SetRenderManager]
    · simp [DomManager.SetDelegateTaskRunner, DomManager.SetRenderManager]
    · simp [DomManager.SetDelegateTaskRunner, DomManager.SetRenderManager, DomManager.storeNode,
        DomManager.GetNode, DomManager.GetRootId]
    · simp [LayoutNode.SetScaleFactor]
    · simp [DomManager.SetDelegateTaskRunner, Scope.GetTaskRunner]
    · simp [Scope.SetRenderManager, Scope.GetTaskRunner]

/-- Witness of C8 on the example state: binding handle 1 with density bits 2 allocates the first
render manager, bound to Java object 8 with that density. -/
theorem CreateNativeRenderDelegate_binds_witness :
    exampleWorld.Find 1 = some exampleScope ∧
    (CreateNativeRenderDelegate exampleWorld { ref := 8 } 1 { bits := 2 }).world.renderManagers =
      [{ javaRef := { ref := 8 }, density := some { bits := 2 } }] :=
  ⟨rfl, (CreateNativeRenderDelegate_binds exampleWorld { ref := 8 } 1 { bits := 2 } exampleScope
    exampleDomManager exampleNode { scaleFactor := { bits := 0 } } rfl rfl rfl rfl).2.1⟩

/-- C9, violated by the code: `CreateNativeRenderDelegate` checks none of the pointers it obtains
after the runtime.  On the example state, a scope without DOM manager (handle 2), a DOM manager
without root node (handle 3) and a root node without layout node (handle 4) each end the call in a
null dereference, after the scope's render manager has already been replaced; `UpdateRootSize`,
`DoCallBack` and `OnReceivedEvent` return on the same missing DOM manager. -/
theorem CreateNativeRenderDelegate_faults_on_miss :
    (CreateNativeRenderDelegate exampleWorld { ref := 8 } 2 { bits := 2 }).outcome =
      Outcome.nullDereference NullPointer.domManager ∧
    (CreateNativeRenderDelegate exampleWorld { ref := 8 } 3 { bits := 2 }).outcome =
      Outcome.nullDereference NullPointer.node ∧
    (CreateNativeRenderDelegate exampleWorld { ref := 8 } 4 { bits := 2 }).outcome =
      Outcome.nullDereference NullPointer.layoutNode ∧
    ((CreateNativeRenderDelegate exampleWorld { ref := 8 } 2 { bits := 2 }).world.Find 2).map
      Scope.renderManager = some (some 0) ∧
    (UpdateRootSize exampleWorld 2 { bits := 1 } { bits := 1 }).outcome = Outcome.returned ∧
    (DoCallBack exampleCollaborators exampleWorld 2 7 onClick none 0 0).outcome =
      Outcome.returned ∧
    (OnReceivedEvent exampleCollaborators exampleWorld 2 7 onClick none 0 0 1 1).outcome =
      Outcome.returned :=
  ⟨rfl, rfl, rfl, rfl, rfl, rfl, rfl⟩

end Hippy
